import Mathlib

/-!
Verification of the TD Ameritrade API client (`tdameritrade_api.py`)
against its natural-language specification.

The Python module is shallowly embedded: dictionaries become a small JSON
value type `JVal`, Python exceptions become an error enumeration `PyError`
threaded through `Except`, the HTTP transport becomes an oracle function
supplied as a parameter, and the client's mutable `self.response` slot
becomes an explicit value in the result.  Floats are modelled as rationals
(the claims under verification do not depend on float artifacts), and
`strftime` calendar rendering is abstracted by an injective rendering of an
integer day index.
-/

/-- Python exceptions that the embedded code can raise. -/
inductive PyError where
  | notImplementedError
  | indexError
  | attributeError
  | typeError
  | unboundLocalError
  | valueError
  | keyError
  | httpError
deriving DecidableEq, Repr

/-- JSON-ish values, standing in for the Python dict/list/str/number values
that the client builds and parses. -/
inductive JVal where
  | null
  | str (s : String)
  | num (q : Rat)
  | bool (b : Bool)
  | arr (elems : List JVal)
  | obj (fields : List (String × JVal))
deriving Repr

/-- Association lookup in a JSON object's field list (first match, as
Python dict lookup on the insertion-ordered literal). -/
def jLookup (fields : List (String × JVal)) (key : String) : Option JVal :=
  (fields.find? (fun kv => kv.1 == key)).map (·.2)

/-- Model of `v[key]` on a Python dict: `KeyError` when absent, `TypeError` when the
value is not a dict. -/
def getItem (v : JVal) (key : String) : Except PyError JVal :=
  match v with
  | .obj fields =>
    match jLookup fields key with
    | some w => .ok w
    | none => .error .keyError
  | _ => .error .typeError

/-- Number of entries in the `orderLegCollection` field of an order body. -/
def legCount (v : JVal) : Option Nat :=
  match v with
  | .obj fields =>
    match jLookup fields "orderLegCollection" with
    | some (.arr legs) => some legs.length
    | _ => none
  | _ => none

/-- Number of entries in the `childOrderStrategies` field of an order body. -/
def childCount (v : JVal) : Option Nat :=
  match v with
  | .obj fields =>
    match jLookup fields "childOrderStrategies" with
    | some (.arr children) => some children.length
    | _ => none
  | _ => none

/-- The leg counts of each nested child order of an order body. -/
def childLegCounts (v : JVal) : Option (List (Option Nat)) :=
  match v with
  | .obj fields =>
    match jLookup fields "childOrderStrategies" with
    | some (.arr children) => some (children.map legCount)
    | _ => none
  | _ => none

/-- String field of a JSON object, when present and a string. -/
def jLookupStr (v : JVal) (key : String) : Option String :=
  match v with
  | .obj fields =>
    match jLookup fields key with
    | some (.str s) => some s
    | _ => none
  | _ => none

/-- Python `round(x, 2)` on the rational model of a float. -/
def round2 (q : Rat) : Rat := (round (q * 100) : Int) / 100

/-- Python `str(round(x, 2))`: decimal rendering of the two-decimal
rounding (float `str` artifacts such as `"32.0"` vs `"32.00"` are not
modelled; no claim depends on the rendering). -/
def str_round2 (q : Rat) : String :=
  let c : Int := round (q * 100)
  let a := c.natAbs
  (if c < 0 then "-" else "") ++ toString (a / 100) ++ "." ++
    (if a % 100 < 10 then "0" else "") ++ toString (a % 100)

/-- Python `int(x)`: truncation toward zero. -/
def pyInt (q : Rat) : Int :=
  if 0 ≤ q then ⌊q⌋ else -⌊-q⌋

/-- Python `str(int(x))`. -/
def str_pyInt (q : Rat) : String := toString (pyInt q)

/-- The `instrument` sub-dict shared by every order leg. -/
def instrument (symbol : String) : JVal :=
  .obj [("symbol", .str symbol), ("assetType", .str "EQUITY")]

/-- One entry of an `orderLegCollection` list. -/
def legObj (instruction : String) (quantity : JVal) (symbol : String) : JVal :=
  .obj [("instruction", .str instruction), ("quantity", quantity),
        ("instrument", instrument symbol)]

/-- The order body built by `limit_order`. -/
def limit_order_data (symbol : String) (price quantity : Rat)
    (duration instruction : String) : JVal :=
  .obj [("session", .str "SEAMLESS"),
        ("duration", .str duration),
        ("orderType", .str "LIMIT"),
        ("price", .num (round2 price)),
        ("orderStrategyType", .str "SINGLE"),
        ("orderLegCollection",
          .arr [legObj instruction (.num (pyInt quantity : Int)) symbol])]

/-- The order body built by `stop_limit_order`. -/
def stop_limit_order_data (symbol instruction : String) (quantity : Rat)
    (duration : String) (stop_price limit_price : Rat) : JVal :=
  .obj [("session", .str "NORMAL"),
        ("duration", .str duration),
        ("orderType", .str "STOP_LIMIT"),
        ("stopPrice", .str (str_round2 stop_price)),
        ("price", .str (str_round2 limit_price)),
        ("stopPriceLinkBasis", .str "LAST"),
        ("stopPriceLinkType", .str "VALUE"),
        ("stopType", .str "STANDARD"),
        ("orderLegCollection",
          .arr [legObj instruction (.str (str_pyInt quantity)) symbol])]

/-- The order body built by `trailing_stop_order` (its `stop_price`
parameter is unused by the source). -/
def trailing_stop_order_data (symbol instruction : String) (quantity : Rat)
    (duration : String) (trail_amount : Rat) : JVal :=
  .obj [("session", .str "NORMAL"),
        ("duration", .str duration),
        ("orderType", .str "TRAILING_STOP"),
        ("stopPriceOffset", .str (str_round2 trail_amount)),
        ("stopPriceLinkBasis", .str "BID"),
        ("stopPriceLinkType", .str "VALUE"),
        ("stopType", .str "STANDARD"),
        ("orderStrategyType", .str "SINGLE"),
        ("orderLegCollection",
          .arr [legObj instruction (.str (str_pyInt quantity)) symbol])]

/-- The order body built by `trailing_stop_limit_order` (the commented-out
`stopPrice`/`price` fields of the source are absent; `stop_price` is an
unused parameter there). -/
def trailing_stop_limit_order_data (symbol instruction : String)
    (quantity : Rat) (duration : String) (trail_amount : Rat) : JVal :=
  .obj [("session", .str "NORMAL"),
        ("duration", .str duration),
        ("orderType", .str "TRAILING_STOP_LIMIT"),
        ("stopPriceOffset", .str (str_round2 trail_amount)),
        ("stopPriceLinkBasis", .str "LAST"),
        ("stopPriceLinkType", .str "VALUE"),
        ("stopType", .str "STANDARD"),
        ("orderLegCollection",
          .arr [legObj instruction (.str (str_pyInt quantity)) symbol])]

/-- The order body built by `bracket_order`, once `child_instruction` has
been assigned. -/
def bracket_order_data (symbol instruction child_instruction : String)
    (price quantity profit_price : Rat) (duration : String) : JVal :=
  .obj [("orderType", .str "LIMIT"),
        ("orderStrategyType", .str "TRIGGER"),
        ("session", .str "SEAMLESS"),
        ("duration", .str duration),
        ("price", .str (str_round2 price)),
        ("orderLegCollection",
          .arr [legObj instruction (.str (str_pyInt quantity)) symbol]),
        ("childOrderStrategies",
          .arr [.obj [("orderType", .str "LIMIT"),
                      ("orderStrategyType", .str "SINGLE"),
                      ("session", .str "NORMAL"),
                      ("duration", .str duration),
                      ("price", .str (str_round2 profit_price)),
                      ("orderLegCollection",
                        .arr [legObj child_instruction
                                (.str (str_pyInt quantity)) symbol])]])]

/-- The order body built by `oto_limit_trail_order`, once
`child_instruction` has been assigned: a LIMIT trigger order with two
nested child orders (a profit-taking LIMIT and a TRAILING_STOP). -/
def oto_order_data (symbol instruction child_instruction : String)
    (limit_price limit_quantity trail_amount trail_quantity
      profit_price : Rat) : JVal :=
  .obj [("orderType", .str "LIMIT"),
        ("session", .str "NORMAL"),
        ("duration", .str "DAY"),
        ("price", .str (str_round2 limit_price)),
        ("orderStrategyType", .str "TRIGGER"),
        ("orderLegCollection",
          .arr [legObj instruction (.str (str_pyInt limit_quantity)) symbol]),
        ("childOrderStrategies",
          .arr [.obj [("orderType", .str "LIMIT"),
                      ("orderStrategyType", .str "SINGLE"),
                      ("session", .str "NORMAL"),
                      ("duration", .str "DAY"),
                      ("price", .str (str_round2 profit_price)),
                      ("orderLegCollection",
                        .arr [legObj child_instruction
                                (.str (str_pyInt (limit_quantity + trail_quantity)))
                                symbol])],
                .obj [("orderType", .str "TRAILING_STOP"),
                      ("orderStrategyType", .str "SINGLE"),
                      ("session", .str "NORMAL"),
                      ("duration", .str "DAY"),
                      ("stopPriceOffset", .str (str_round2 trail_amount)),
                      ("stopPriceLinkBasis", .str "LAST"),
                      ("stopPriceLinkType", .str "VALUE"),
                      ("stopType", .str "STANDARD"),
                      ("orderLegCollection",
                        .arr [legObj instruction
                                (.str (str_pyInt trail_quantity)) symbol])]])]

example : legCount (limit_order_data "PFE" 32 1 "DAY" "BUY") = some 1 := rfl

example : childCount (oto_order_data "PFE" "BUY" "SELL" 32 1 1 1 40) = some 2 := rfl

/-- The `child_instruction` if/elif chain of `bracket_order`: `none` models
the Python local never being assigned (so that a later read raises
`UnboundLocalError`). -/
def childInstructionBracket (instruction : String) : Option String :=
  if instruction = "BUY" then some "SELL"
  else if instruction = "SELL" then some "BUY"
  else if instruction = "BUY_TO_COVER" then some "SELL_SHORT"
  else if instruction = "SELL_SHORT" then some "BUY_TO_COVER"
  else none

/-- The `child_instruction` if/elif chain of `oto_limit_trail_order`. -/
def childInstructionOto (instruction : String) : Option String :=
  if instruction = "BUY" then some "SELL"
  else if instruction = "SELL" then some "BUY"
  else none

/-- A call into `_send_request` as prepared by `_place_order` or
`_create_saved_order`: the relative URL, HTTP method, and optional JSON
body, before the transport is consulted. -/
structure SentCall where
  url : String
  method : String
  data : Option JVal
deriving Repr

/-- Keyword-argument lookup (Python call binding). -/
def kwLookup (kwargs : List (String × JVal)) (name : String) : Option JVal :=
  (kwargs.find? (fun kv => kv.1 == name)).map (·.2)

/-- The string payload of a keyword argument, for the `method` parameter. -/
def kwStr (v : Option JVal) (default : String) : String :=
  match v with
  | some (.str s) => s
  | _ => default

/-- A keyword call to `_place_order(self, method="GET", data=None)`:
Python raises `TypeError` when a keyword name matches no parameter, before
the function body runs (so before any URL is formatted or request sent). -/
def place_order_call (account_number : String)
    (kwargs : List (String × JVal)) : Except PyError SentCall :=
  if kwargs.all (fun kv => kv.1 == "method" || kv.1 == "data") then
    .ok { url := "accounts/" ++ account_number ++ "/orders",
          method := kwStr (kwLookup kwargs "method") "GET",
          data := kwLookup kwargs "data" }
  else .error .typeError

/-- A keyword call to `_create_saved_order(self, parameters=None)`. -/
def create_saved_order_call (account_number : String)
    (kwargs : List (String × JVal)) : Except PyError SentCall :=
  if kwargs.all (fun kv => kv.1 == "parameters") then
    .ok { url := "accounts/" ++ account_number ++ "/savedorders",
          method := "GET",
          data := kwLookup kwargs "parameters" }
  else .error .typeError

/-- Model of `limit_order`: builds the body, then calls `_place_order(parameters=data)`
when `place` is true and `_create_saved_order(parameters=data)` otherwise. -/
def limit_order (account_number symbol : String) (price quantity : Rat)
    (duration instruction : String) (place : Bool) : Except PyError SentCall :=
  let data := limit_order_data symbol price quantity duration instruction
  if place then place_order_call account_number [("parameters", data)]
  else create_saved_order_call account_number [("parameters", data)]

/-- Model of `stop_limit_order`. -/
def stop_limit_order (account_number symbol instruction : String)
    (quantity : Rat) (duration : String) (stop_price limit_price : Rat)
    (place : Bool) : Except PyError SentCall :=
  let data := stop_limit_order_data symbol instruction quantity duration
    stop_price limit_price
  if place then place_order_call account_number [("parameters", data)]
  else create_saved_order_call account_number [("parameters", data)]

/-- Model of `trailing_stop_order` (`stop_price` is accepted and unused, as in the
source). -/
def trailing_stop_order (account_number symbol instruction : String)
    (quantity : Rat) (duration : String) (stop_price trail_amount : Rat)
    (place : Bool) : Except PyError SentCall :=
  let _ := stop_price
  let data := trailing_stop_order_data symbol instruction quantity duration
    trail_amount
  if place then place_order_call account_number [("parameters", data)]
  else create_saved_order_call account_number [("parameters", data)]

/-- Model of `trailing_stop_limit_order` (`stop_price` accepted and unused). -/
def trailing_stop_limit_order (account_number symbol instruction : String)
    (quantity : Rat) (duration : String) (trail_amount stop_price : Rat)
    (place : Bool) : Except PyError SentCall :=
  let _ := stop_price
  let data := trailing_stop_limit_order_data symbol instruction quantity
    duration trail_amount
  if place then place_order_call account_number [("parameters", data)]
  else create_saved_order_call account_number [("parameters", data)]

/-- Model of `bracket_order`: assigns `child_instruction` by the if/elif chain (an
unmatched instruction leaves it unbound, raising `UnboundLocalError` when
the body dict references it), then calls
`_place_order(method="POST", data=data)`. -/
def bracket_order (account_number symbol instruction : String)
    (price quantity profit_price : Rat) (duration : String) :
    Except PyError SentCall :=
  match childInstructionBracket instruction with
  | none => .error .unboundLocalError
  | some child_instruction =>
    let data := bracket_order_data symbol instruction child_instruction
      price quantity profit_price duration
    place_order_call account_number [("method", .str "POST"), ("data", data)]

/-- Model of `oto_limit_trail_order`: assigns `child_instruction` by its if/elif
chain, builds the two-child trigger body, then calls
`_place_order(parameters=data)`. -/
def oto_limit_trail_order (account_number symbol instruction : String)
    (limit_price limit_quantity trail_amount trail_quantity
      profit_price : Rat) : Except PyError SentCall :=
  match childInstructionOto instruction with
  | none => .error .unboundLocalError
  | some child_instruction =>
    let data := oto_order_data symbol instruction child_instruction
      limit_price limit_quantity trail_amount trail_quantity profit_price
    place_order_call account_number [("parameters", data)]

example : limit_order "a1" "PFE" 32 1 "DAY" "BUY" true = .error .typeError := rfl

example : oto_limit_trail_order "a1" "PFE" "BUY" 32 1 1 1 40 =
    .error .typeError := rfl

example : oto_limit_trail_order "a1" "PFE" "HOLD" 32 1 1 1 40 =
    .error .unboundLocalError := rfl

/-- Model of `strftime("%Y-%m-%d")` on the integer day-index model of `datetime`:
the calendar rendering is abstracted by an injective decimal rendering of
the day index (`datetime.today()` is a day-index parameter, and
`timedelta(n)` is subtraction of `n`). -/
def dateStr (d : Int) : String := toString d

/-- The URL constructed by `get_orders`, with the source's defaulting of an
omitted `to_date` to today and an omitted `from_date` to one day ago. -/
def get_orders_url (account_number : String) (max_results : Nat)
    (from_date to_date : Option Int) (order_status : Option String)
    (today : Int) : String :=
  let to_date := to_date.getD today
  let from_date := from_date.getD (today - 1)
  let base := "orders?accountId=" ++ account_number ++ "&maxResults=" ++
    toString max_results ++ "&fromEnteredTime=" ++ dateStr from_date ++
    "&toEnteredTime=" ++ dateStr to_date
  match order_status with
  | none => base
  | some st => base ++ "&status=" ++ st

/-- The URL constructed by `get_transactions`, with the source's defaulting
of an omitted `to_date` to today and an omitted `from_date` to 35 days
ago. -/
def get_transactions_url (account_number trans_type : String)
    (from_date to_date : Option Int) (symbol : Option String)
    (today : Int) : String :=
  let to_date := to_date.getD today
  let from_date := from_date.getD (today - 35)
  match symbol with
  | none =>
    "accounts/" ++ account_number ++ "/transactions?type=" ++ trans_type ++
      "&startDate=" ++ dateStr from_date ++ "&endDate=" ++ dateStr to_date
  | some sym =>
    "accounts/" ++ account_number ++ "/transactions?type=" ++ trans_type ++
      "&symbol=" ++ sym ++ "&startDate=" ++ dateStr from_date ++
      "&endDate=" ++ dateStr to_date

/-- One entry of the JSON array returned by the watchlists listing
endpoint, as read by `get_watchlist` (the API returns objects carrying at
least `name` and `watchlistId`; further payload is irrelevant to the
lookup). -/
structure WatchlistEntry where
  name : String
  watchlistId : String
deriving DecidableEq, Repr

/-- The listing URL used by `get_watchlists`. -/
def watchlistsUrl (account_number : String) : String :=
  "accounts/" ++ account_number ++ "/watchlists"

/-- Python `"{}".format(x)` where `x : Option String` is a possibly-unbound
id: `None` is rendered as the literal string `"None"`. -/
def pyFormatOpt : Option String → String
  | none => "None"
  | some s => s

/-- The per-watchlist URL `accounts/{}/watchlists/{}`. -/
def watchlistUrl (account_number : String) (id_num : Option String) : String :=
  "accounts/" ++ account_number ++ "/watchlists/" ++ pyFormatOpt id_num

/-- Model of `get_watchlist(id_num, name)`.  `watchlists` is the parsed response of
the listing endpoint and `wire` maps a fetched URL to its parsed response.
Returns the list of URLs requested together with the final
`self.response`.  With an id the fetch is direct; with only a name the
listing is fetched and linearly scanned for the first name match — when no
entry matches, `id_num` stays `None` and the fetch is still issued against
the URL ending `/None`; with neither, `ValueError` is raised. -/
def get_watchlist (account_number : String)
    (watchlists : List WatchlistEntry) (wire : String → JVal)
    (id_num name : Option String) :
    Except PyError (List String × JVal) :=
  match id_num with
  | some idn =>
    let url := watchlistUrl account_number (some idn)
    .ok ([url], wire url)
  | none =>
    match name with
    | some nm =>
      let found := (watchlists.find? (fun w => w.name == nm)).map
        (·.watchlistId)
      let url := watchlistUrl account_number found
      .ok ([watchlistsUrl account_number, url], wire url)
    | none => .error .valueError

/-- An outgoing HTTP request as assembled by `_send_request`: the JSON body
is carried structurally (byte-level `json.dumps` encoding abstracted), and
`Content-Length` renders an abstract size of that body. -/
structure HttpRequest where
  url : String
  method : String
  headers : List (String × String)
  body : Option JVal
deriving Repr

/-- The client's `self.response` slot after `_send_request`: either the
parsed JSON body (the `data is None` branch) or the raw, unparsed response
handle (the branch with a body). -/
inductive LastResponse where
  | parsed (v : JVal)
  | rawHandle
deriving Repr

/-- What the transport returns for a request: a successful response whose
body parses to the given JSON value, or an HTTP error. -/
inductive WireAnswer where
  | success (body : JVal)
  | httpError
deriving Repr

mutual

/-- Abstract size of a serialized JSON value, standing in for
`len(json.dumps(data).encode("utf-8"))` in the `Content-Length` header
(exact byte counts are not relied on by any claim). -/
def jSize : JVal → Nat
  | .null => 4
  | .str s => s.length + 2
  | .num _ => 1
  | .bool _ => 4
  | .arr xs => 2 + jSizeList xs
  | .obj fs => 2 + jSizeFields fs

/-- Size of the elements of a JSON array. -/
def jSizeList : List JVal → Nat
  | [] => 0
  | x :: xs => jSize x + jSizeList xs

/-- Size of the fields of a JSON object. -/
def jSizeFields : List (String × JVal) → Nat
  | [] => 0
  | (k, v) :: fs => k.length + jSize v + jSizeFields fs

end

/-- The request before the body branch: base URL prefix plus the
`Authorization` bearer header. -/
def baseRequest (oauth_certificate url method : String) : HttpRequest :=
  { url := "https://api.tdameritrade.com/v1/" ++ url,
    method := method,
    headers := [("Authorization", "Bearer " ++ oauth_certificate)],
    body := none }

/-- The request in the with-body branch: JSON content headers added and the
serialized body attached. -/
def jsonRequest (oauth_certificate url method : String) (d : JVal) :
    HttpRequest :=
  let r := baseRequest oauth_certificate url method
  { r with
    headers := r.headers ++
      [("Content-Type", "application/json; charset=utf-8"),
       ("Content-Length", toString (jSize d))],
    body := some d }

/-- Model of `_send_request(url, method, data)`: branches on `data is None`, not on
the method.  Without a body, the response is read and parsed as JSON into
`self.response`; with a body, JSON content headers are added, the body is
serialized, and the unparsed response object is stored.  HTTP errors
propagate unchanged in both branches. -/
def send_request (oauth_certificate url : String) (method : String)
    (data : Option JVal) (wire : HttpRequest → WireAnswer) :
    Except PyError (HttpRequest × LastResponse) :=
  match data with
  | none =>
    let req := baseRequest oauth_certificate url method
    match wire req with
    | .success body => .ok (req, .parsed body)
    | .httpError => .error .httpError
  | some d =>
    let req := jsonRequest oauth_certificate url method d
    match wire req with
    | .success _ => .ok (req, .rawHandle)
    | .httpError => .error .httpError

/-- A `symbols` argument that may be a bare string or a list of strings. -/
abbrev StrOrList : Type := String ⊕ List String

/-- The `if type(symbols) is str: symbols = [symbols]` normalization shared
by the multi-symbol operations. -/
def normalizeSymbols : StrOrList → List String
  | .inl s => [s]
  | .inr l => l

/-- One entry of the `candles` array of a price-history response. -/
structure Candle where
  datetime : Int
  openPrice : Rat
  high : Rat
  low : Rat
  closePrice : Rat
  volume : Rat
deriving DecidableEq, Repr

/-- The per-symbol DataFrame built inside the `get_price_history` loop:
time index plus one OHLCV row per candle. -/
structure SymbolFrame where
  index : List Int
  rows : List (List Rat)
deriving DecidableEq, Repr

/-- Model of `datetime.fromtimestamp(t/1000.)` (minute granularity)
vs `.date()` of it (coarser granularities): the calendar conversion is
abstracted by keeping the millisecond timestamp, resp. flooring it to a
day index. -/
def candleIndexKey (frequency_type : String) (t : Int) : Int :=
  if frequency_type = "minute" then t else t / 86400000

/-- The per-symbol DataFrame for a nonempty candle list. -/
def mkSymbolFrame (frequency_type : String) (candles : List Candle) :
    SymbolFrame :=
  { index := candles.map (fun c => candleIndexKey frequency_type c.datetime),
    rows := candles.map (fun c =>
      [c.openPrice, c.high, c.low, c.closePrice, c.volume]) }

/-- The Python local `temp_data` across loop iterations: never assigned
yet, left as the flat numpy array of a zero-candle symbol (whose DataFrame
construction raised `IndexError`), or the DataFrame of the last successful
symbol. -/
inductive TempData where
  | unassigned
  | ndarray
  | frame (f : SymbolFrame)
deriving DecidableEq, Repr

/-- Model of `dict.update` on an association list: replaces an existing key's value,
appends otherwise. -/
def updateAssoc {α : Type} (l : List (String × α)) (k : String) (v : α) :
    List (String × α) :=
  if l.any (fun kv => kv.1 == k) then
    l.map (fun kv => if kv.1 == k then (k, v) else kv)
  else l ++ [(k, v)]

/-- Insertion into a sorted list of strings. -/
def insertStr (s : String) : List String → List String
  | [] => [s]
  | t :: r => if s ≤ t then s :: t :: r else t :: insertStr s r

/-- Python `sorted` on a list of strings. -/
def sortStrings : List String → List String
  | [] => []
  | s :: r => insertStr s (sortStrings r)

/-- The symbol loop of `get_price_history`: for each symbol the request is
issued, then the candle array is shaped into a DataFrame.  A zero-candle
response leaves `temp_data` holding the flat numpy array (the DataFrame
construction raised `IndexError`, caught, diagnostic printed, `continue`);
a successful symbol stores its frame under the symbol key. -/
def priceHistoryLoop (frequency_type : String)
    (candles : String → List Candle) :
    List String → TempData → List (String × SymbolFrame) →
    TempData × List (String × SymbolFrame)
  | [], td, acc => (td, acc)
  | sym :: rest, _td, acc =>
    let cs := candles sym
    if cs.isEmpty then
      priceHistoryLoop frequency_type candles rest .ndarray acc
    else
      let f := mkSymbolFrame frequency_type cs
      priceHistoryLoop frequency_type candles rest (.frame f)
        (updateAssoc acc sym f)
  -- the stale `td` after a zero-candle symbol is the numpy array, not a frame

/-- The MultiIndex field names used for the combined table's columns. -/
def barFields : List String :=
  ["close_price", "high", "low", "open_price", "volume"]

/-- The combined price table: index taken from the final `temp_data` frame,
columns the product of the sorted symbol keys with the five fields, and the
per-symbol frames that populate them (pandas index alignment and
forward-fill of gaps are beyond the claims and not modelled cell-wise). -/
structure Bars where
  index : List Int
  columns : List (String × String)
  perSymbol : List (String × SymbolFrame)
deriving DecidableEq, Repr

/-- The post-loop assembly of `get_price_history`:
`pd.DataFrame(index=temp_data.index, columns=...)` reads `.index` off the
final `temp_data`, raising `AttributeError` when it is the leftover numpy
array of a zero-candle symbol and `UnboundLocalError` when no symbol was
processed at all. -/
def assembleBars (td : TempData) (data : List (String × SymbolFrame)) :
    Except PyError Bars :=
  match td with
  | .frame f =>
    .ok { index := f.index,
          columns := (sortStrings (data.map (·.1))).flatMap
            (fun sym => barFields.map (fun fld => (sym, fld))),
          perSymbol := data }
  | .ndarray => .error .attributeError
  | .unassigned => .error .unboundLocalError

/-- Python `str(b)` on a bool. -/
def pyBoolStr (b : Bool) : String := if b then "True" else "False"

/-- The query-string tail shared by every price-history request. -/
def priceHistoryPostUrl (frequency_type : String) (frequency : Nat)
    (start_date end_date : Int) (extended_hours : Bool) : String :=
  let post := "frequencyType=" ++ frequency_type ++ "&frequency=" ++
    toString frequency ++ "&endDate=" ++ toString (end_date * 1000) ++
    "&startDate=" ++ toString (start_date * 1000) ++
    "&needExtendedHoursData=" ++ pyBoolStr extended_hours
  if frequency_type ≠ "minute" then "periodType=year&" ++ post else post

/-- The request URL for one symbol's price history. -/
def priceHistoryUrl (symbol : String) (postUrl : String) : String :=
  "marketdata/" ++ symbol ++ "/pricehistory?" ++ postUrl

/-- Model of `get_price_history`: normalizes a bare-string `symbols`, issues one
request per symbol serially (the returned list of URLs is the request
trace, complete even when the final assembly raises), shapes each
nonempty candle array into a frame, skips zero-candle symbols after the
caught `IndexError`, and assembles the combined table from the leftover
`temp_data` local.  `candles` maps a symbol to the `candles` array of its
parsed response. -/
def get_price_history (symbols : StrOrList) (frequency_type : String)
    (frequency : Nat) (start_date end_date : Int) (extended_hours : Bool)
    (candles : String → List Candle) :
    List String × Except PyError Bars :=
  let syms := normalizeSymbols symbols
  let postUrl := priceHistoryPostUrl frequency_type frequency start_date
    end_date extended_hours
  let urls := syms.map (fun s => priceHistoryUrl s postUrl)
  let (td, data) := priceHistoryLoop frequency_type candles syms
    .unassigned []
  (urls, assembleBars td data)

/-- Model of `strftime("%Y-%m-%d")` day-index rendering of the options-chain date
parameters (same abstraction as `dateStr`). -/
def optionsChainUrl (symbol contract_type : String) (strike_count : Nat)
    (include_quotes : Bool) (strategy : String) (strike : Option Rat)
    (from_date to_date : Int) : String :=
  let iq := if include_quotes then "TRUE" else "FALSE"
  match strike with
  | none =>
    "marketdata/chains?symbol=" ++ symbol ++ "&contractType=" ++
      contract_type ++ "&strikeCount=" ++ toString strike_count ++
      "&includeQuotes=" ++ iq ++ "&strategy=" ++ strategy ++ "&fromDate=" ++
      dateStr from_date ++ "&toDate=" ++ dateStr to_date
  | some st =>
    "marketdata/chains?symbol=" ++ symbol ++ "&contractType=" ++
      contract_type ++ "&strike=" ++ str_round2 st ++ "&includeQuotes=" ++
      iq ++ "&strategy=" ++ strategy ++ "&fromDate=" ++ dateStr from_date ++
      "&toDate=" ++ dateStr to_date

/-- Model of `get_options_chain`: normalizes a bare-string `symbols` and issues one
request per symbol serially, collecting each parsed response under its
symbol key.  Returns the request trace and the per-symbol response map. -/
def get_options_chain (symbols : StrOrList) (contract_type : String)
    (strike_count : Nat) (include_quotes : Bool) (strategy : String)
    (strike : Option Rat) (from_date to_date : Int)
    (wire : String → JVal) : List String × List (String × JVal) :=
  let syms := normalizeSymbols symbols
  let urls := syms.map (fun s => optionsChainUrl s contract_type
    strike_count include_quotes strategy strike from_date to_date)
  let data := syms.foldl (fun acc s =>
    updateAssoc acc s (wire (optionsChainUrl s contract_type strike_count
      include_quotes strategy strike from_date to_date))) []
  (urls, data)

/-- Model of `get_quotes`: joins the symbols with the escaped comma `%2C` into a
single batched request (the transpose into a DataFrame is the parsed
response reshaped; the response value itself is returned). -/
def get_quotes (symbols : StrOrList) (wire : String → JVal) :
    List String × JVal :=
  let syms := normalizeSymbols symbols
  let url := "marketdata/quotes?symbol=" ++ String.intercalate "%2C" syms
  ([url], wire url)

/-- Model of `get_fundamental`: joins the symbols with the escaped comma `%2C` into
a single batched request, then splits the response client-side by selecting
each ticker's `fundamental` sub-object.  Returns the request trace and the
per-ticker data (`AttributeError` models `.keys()` on a non-dict response,
`KeyError` a ticker without a `fundamental` field). -/
def get_fundamental (symbols : StrOrList) (wire : String → JVal) :
    List String × Except PyError (List (String × JVal)) :=
  let syms := normalizeSymbols symbols
  let url := "instruments?symbol=" ++ String.intercalate "%2C" syms ++
    "&projection=fundamental"
  ([url],
    match wire url with
    | .obj fields =>
      fields.mapM (fun kv => (getItem kv.2 "fundamental").map
        (fun f => (kv.1, f)))
    | _ => .error .attributeError)

/-- One entry of an order's `orderLegCollection` as read by
`format_orders`. -/
structure LegIn where
  instruction : String
  quantity : Rat
  symbol : String
  positionEffect : String
deriving DecidableEq, Repr

/-- An order as returned by the orders endpoint, restricted to the fields
`format_orders` reads.  `childOrderStrategies` is `none` when the key is
absent and `some children` when present (possibly with an empty list). -/
inductive OrderIn where
  | mk (complexOrderStrategyType : String)
       (quantity remainingQuantity price : Rat)
       (session orderType duration cancelTime : String)
       (orderId : Int)
       (orderLegCollection : List LegIn)
       (childOrderStrategies : Option (List OrderIn))
deriving Repr

/-- Field accessor. -/
def OrderIn.complexOrderStrategyType : OrderIn → String
  | .mk c _ _ _ _ _ _ _ _ _ _ => c

/-- Field accessor. -/
def OrderIn.quantity : OrderIn → Rat
  | .mk _ q _ _ _ _ _ _ _ _ _ => q

/-- Field accessor. -/
def OrderIn.remainingQuantity : OrderIn → Rat
  | .mk _ _ r _ _ _ _ _ _ _ _ => r

/-- Field accessor. -/
def OrderIn.price : OrderIn → Rat
  | .mk _ _ _ p _ _ _ _ _ _ _ => p

/-- Field accessor. -/
def OrderIn.session : OrderIn → String
  | .mk _ _ _ _ s _ _ _ _ _ _ => s

/-- Field accessor. -/
def OrderIn.orderType : OrderIn → String
  | .mk _ _ _ _ _ t _ _ _ _ _ => t

/-- Field accessor. -/
def OrderIn.duration : OrderIn → String
  | .mk _ _ _ _ _ _ d _ _ _ _ => d

/-- Field accessor. -/
def OrderIn.cancelTime : OrderIn → String
  | .mk _ _ _ _ _ _ _ ct _ _ _ => ct

/-- Field accessor. -/
def OrderIn.orderId : OrderIn → Int
  | .mk _ _ _ _ _ _ _ _ i _ _ => i

/-- Field accessor. -/
def OrderIn.orderLegCollection : OrderIn → List LegIn
  | .mk _ _ _ _ _ _ _ _ _ legs _ => legs

/-- Field accessor. -/
def OrderIn.childOrderStrategies : OrderIn → Option (List OrderIn)
  | .mk _ _ _ _ _ _ _ _ _ _ ch => ch

/-- The flat record `format_order` builds for a simple order.  `childId`
is `none` for the `""` written when the `childOrderStrategies` key is
absent. -/
structure FormattedOrder where
  price : Rat
  session : String
  type : String
  duration : String
  symbol : String
  instruction : String
  quantity : Rat
  position_effect : String
  id : Int
  time : String
  childId : Option Int
deriving DecidableEq, Repr

/-- The guard of `format_order`: no complex strategy, full remaining
quantity, exactly one leg. -/
def isSimpleOrder (o : OrderIn) : Prop :=
  o.complexOrderStrategyType = "NONE" ∧
    o.quantity = o.remainingQuantity ∧
    o.orderLegCollection.length = 1

instance (o : OrderIn) : Decidable (isSimpleOrder o) := by
  unfold isSimpleOrder
  infer_instance

/-- The nested `format_order` of `format_orders`: collapses a simple order
into a flat record; any other shape raises `NotImplementedError`.  The
`childId` line indexes `order['childOrderStrategies'][0]`, which raises
`IndexError` when the key is present but the list empty. -/
def format_order (o : OrderIn) : Except PyError FormattedOrder :=
  if isSimpleOrder o then
    match o.orderLegCollection with
    | leg :: _ =>
      let time := if o.duration = "GOOD_TILL_CANCEL" then o.cancelTime
        else ""
      match o.childOrderStrategies with
      | some [] => .error .indexError
      | some (c :: _) =>
        .ok { price := o.price, session := o.session, type := o.orderType,
              duration := o.duration, symbol := leg.symbol,
              instruction := leg.instruction, quantity := leg.quantity,
              position_effect := leg.positionEffect, id := o.orderId,
              time := time, childId := some c.orderId }
      | none =>
        .ok { price := o.price, session := o.session, type := o.orderType,
              duration := o.duration, symbol := leg.symbol,
              instruction := leg.instruction, quantity := leg.quantity,
              position_effect := leg.positionEffect, id := o.orderId,
              time := time, childId := none }
    | [] => .error .indexError
  else .error .notImplementedError

/-- The order loop of `format_orders`: formats each order, and for an
order with a `childOrderStrategies` key additionally formats its first
child (`[0]` on an empty list raises `IndexError`).  Any raised exception
propagates out of the loop. -/
def formatOrdersLoop : List OrderIn → Except PyError (List FormattedOrder)
  | [] => .ok []
  | o :: rest => do
    let f ← format_order o
    let withChild ← match o.childOrderStrategies with
      | none => pure [f]
      | some [] => Except.error .indexError
      | some (c :: _) => do
        let fc ← format_order c
        pure [f, fc]
    let tail ← formatOrdersLoop rest
    pure (withChild ++ tail)

/-- Model of `format_orders`: the loop's record list (the final
`pd.DataFrame.from_records` re-keys the same records by their `id` column
and fixes a column order, which changes no record). -/
def format_orders (orders : List OrderIn) :
    Except PyError (List FormattedOrder) :=
  formatOrdersLoop orders

/-- Claim C7: when both `from_date` and `to_date` are omitted, the
transactions call uses a 35-day trailing window ending today and the orders
call uses a 1-day trailing window ending today, and the formatted date
range in each constructed URL matches these defaults exactly. -/
theorem default_date_windows (account_number trans_type : String)
    (max_results : Nat) (order_status : Option String)
    (symbol : Option String) (today : Int) :
    get_orders_url account_number max_results none none order_status today =
      get_orders_url account_number max_results (some (today - 1))
        (some today) order_status today
    ∧ get_transactions_url account_number trans_type none none symbol
        today =
      get_transactions_url account_number trans_type (some (today - 35))
        (some today) symbol today
    ∧ get_orders_url account_number max_results none none none today =
      "orders?accountId=" ++ account_number ++ "&maxResults=" ++
        toString max_results ++ "&fromEnteredTime=" ++ dateStr (today - 1) ++
        "&toEnteredTime=" ++ dateStr today
    ∧ get_transactions_url account_number trans_type none none none today =
      "accounts/" ++ account_number ++ "/transactions?type=" ++ trans_type ++
        "&startDate=" ++ dateStr (today - 35) ++ "&endDate=" ++
        dateStr today :=
  ⟨rfl, rfl, rfl, rfl⟩

/-- Claim C8: for every symbol string, calling `get_quotes` (and likewise
`get_fundamental`) with the bare string produces output identical to
calling it with the single-element list, given the same remote response. -/
theorem string_vs_singleton_list (s : String) (wire : String → JVal) :
    get_quotes (Sum.inl s) wire = get_quotes (Sum.inr [s]) wire
    ∧ get_fundamental (Sum.inl s) wire = get_fundamental (Sum.inr [s]) wire :=
  ⟨rfl, rfl⟩

/-- Claim C5 (amended): every supported order body carries exactly one
entry in its top-level `orderLegCollection`, and each nested child order
also carries exactly one leg; `bracket_order` carries exactly one nested
child order, while `oto_limit_trail_order` — also a TRIGGER
(one-triggers-another) strategy — carries exactly two. -/
theorem order_bodies_leg_child_counts
    (symbol instruction child_instruction duration : String)
    (price quantity stop_price limit_price trail_amount profit_price
      limit_quantity trail_quantity : Rat) :
    legCount (limit_order_data symbol price quantity duration instruction) =
      some 1
    ∧ legCount (stop_limit_order_data symbol instruction quantity duration
        stop_price limit_price) = some 1
    ∧ legCount (trailing_stop_order_data symbol instruction quantity
        duration trail_amount) = some 1
    ∧ legCount (trailing_stop_limit_order_data symbol instruction quantity
        duration trail_amount) = some 1
    ∧ legCount (bracket_order_data symbol instruction child_instruction
        price quantity profit_price duration) = some 1
    ∧ childCount (bracket_order_data symbol instruction child_instruction
        price quantity profit_price duration) = some 1
    ∧ childLegCounts (bracket_order_data symbol instruction
        child_instruction price quantity profit_price duration) =
      some [some 1]
    ∧ legCount (oto_order_data symbol instruction child_instruction
        limit_price limit_quantity trail_amount trail_quantity
        profit_price) = some 1
    ∧ childCount (oto_order_data symbol instruction child_instruction
        limit_price limit_quantity trail_amount trail_quantity
        profit_price) = some 2
    ∧ childLegCounts (oto_order_data symbol instruction child_instruction
        limit_price limit_quantity trail_amount trail_quantity
        profit_price) = some [some 1, some 1] :=
  ⟨rfl, rfl, rfl, rfl, rfl, rfl, rfl, rfl, rfl, rfl⟩

/-- Claim C5 is false as stated: the body built by `oto_limit_trail_order`
(a TRIGGER / one-triggers-another strategy, with `child_instruction =
"SELL"` as assigned for a `"BUY"` instruction) carries two nested child
orders in `childOrderStrategies`, not one. -/
theorem oto_two_children_counterexample :
    childInstructionOto "BUY" = some "SELL"
    ∧ jLookupStr (oto_order_data "AAPL" "BUY" "SELL" 10 1 1 1 12)
        "orderStrategyType" = some "TRIGGER"
    ∧ childCount (oto_order_data "AAPL" "BUY" "SELL" 10 1 1 1 12) = some 2
    ∧ (2 : Nat) ≠ 1 :=
  ⟨rfl, rfl, rfl, by decide⟩

/-- Claim C6 (amended): multi-symbol price history and options chains
issue exactly one request per input symbol, serially in input order, and
merge per-symbol results client-side; multi-symbol fundamentals instead
issues a single batched request with the symbols joined by the escaped
comma and splits the response client-side. -/
theorem per_symbol_request_traces (syms : List String)
    (frequency_type strategy contract_type : String)
    (frequency strike_count : Nat)
    (start_date end_date from_date to_date : Int)
    (extended_hours include_quotes : Bool) (strike : Option Rat)
    (candles : String → List Candle) (wire : String → JVal) :
    (get_price_history (Sum.inr syms) frequency_type frequency start_date
        end_date extended_hours candles).1 =
      syms.map (fun s => priceHistoryUrl s (priceHistoryPostUrl
        frequency_type frequency start_date end_date extended_hours))
    ∧ (get_price_history (Sum.inr syms) frequency_type frequency start_date
        end_date extended_hours candles).1.length = syms.length
    ∧ (get_options_chain (Sum.inr syms) contract_type strike_count
        include_quotes strategy strike from_date to_date wire).1 =
      syms.map (fun s => optionsChainUrl s contract_type strike_count
        include_quotes strategy strike from_date to_date)
    ∧ (get_options_chain (Sum.inr syms) contract_type strike_count
        include_quotes strategy strike from_date to_date wire).1.length =
      syms.length
    ∧ (get_fundamental (Sum.inr syms) wire).1 =
      ["instruments?symbol=" ++ String.intercalate "%2C" syms ++
        "&projection=fundamental"]
    ∧ (get_fundamental (Sum.inr syms) wire).1.length = 1 := by
  refine ⟨rfl, ?_, rfl, ?_, rfl, rfl⟩
  · simp [get_price_history, normalizeSymbols]
  · simp [get_options_chain, normalizeSymbols]

/-- Claim C6 is false as stated for fundamentals: a two-symbol
`get_fundamental` call issues exactly one batched request (the two symbols
joined by the escaped comma), not one request per symbol. -/
theorem fundamental_single_batched_request :
    (get_fundamental (Sum.inr ["AAPL", "MSFT"]) (fun _ => JVal.null)).1 =
      ["instruments?symbol=AAPL%2CMSFT&projection=fundamental"]
    ∧ (get_fundamental (Sum.inr ["AAPL", "MSFT"])
        (fun _ => JVal.null)).1.length = 1
    ∧ (1 : Nat) ≠ 2 :=
  ⟨rfl, rfl, by decide⟩

/-- Claim C9 (amended): every `limit_order`, `stop_limit_order`,
`trailing_stop_order`, or `trailing_stop_limit_order` call with
`place=True` raises `TypeError` (the `_place_order` signature accepts no
`parameters` keyword) before any request is constructed or sent;
`oto_limit_trail_order` does likewise for a BUY or SELL instruction (any
other instruction fails even earlier with an unbound-name error); only
`bracket_order` reaches the placement request. -/
theorem place_order_parameters_type_error
    (account_number symbol instruction duration : String)
    (price quantity stop_price limit_price trail_amount profit_price
      limit_quantity trail_quantity : Rat) :
    limit_order account_number symbol price quantity duration instruction
      true = .error .typeError
    ∧ stop_limit_order account_number symbol instruction quantity duration
        stop_price limit_price true = .error .typeError
    ∧ trailing_stop_order account_number symbol instruction quantity
        duration stop_price trail_amount true = .error .typeError
    ∧ trailing_stop_limit_order account_number symbol instruction quantity
        duration trail_amount stop_price true = .error .typeError
    ∧ (instruction = "BUY" ∨ instruction = "SELL" →
        oto_limit_trail_order account_number symbol instruction limit_price
          limit_quantity trail_amount trail_quantity profit_price =
          .error .typeError)
    ∧ (∀ ci, childInstructionBracket instruction = some ci →
        bracket_order account_number symbol instruction price quantity
          profit_price duration =
        .ok { url := "accounts/" ++ account_number ++ "/orders",
              method := "POST",
              data := some (bracket_order_data symbol instruction ci price
                quantity profit_price duration) }) := by
  refine ⟨rfl, rfl, rfl, rfl, ?_, ?_⟩
  · rintro (rfl | rfl) <;> rfl
  · intro ci hci
    simp only [bracket_order, hci]
    rfl

/-- Witness for `place_order_parameters_type_error` at concrete inputs:
an `oto_limit_trail_order` BUY call raises `TypeError`, and a BUY
`bracket_order` reaches the POST placement request. -/
theorem place_order_parameters_type_error_witness :
    oto_limit_trail_order "a1" "PFE" "BUY" 30 1 1 1 40 = .error .typeError
    ∧ bracket_order "a1" "PFE" "BUY" 30 1 40 "DAY" =
      .ok { url := "accounts/a1/orders",
            method := "POST",
            data := some (bracket_order_data "PFE" "BUY" "SELL" 30 1 40
              "DAY") } := by
  have h := place_order_parameters_type_error "a1" "PFE" "BUY" "DAY"
    30 1 1 30 1 40 1 1
  exact ⟨h.2.2.2.2.1 (Or.inl rfl), h.2.2.2.2.2 "SELL" rfl⟩

/-- Claim C9 is false as stated for `oto_limit_trail_order` with an
instruction outside BUY/SELL: the call fails with the unbound-name error
from the unassigned `child_instruction`, not with a `TypeError`. -/
theorem oto_invalid_instruction_not_type_error :
    oto_limit_trail_order "a1" "PFE" "HOLD" 30 1 1 1 40 =
      .error .unboundLocalError
    ∧ (Except.error .unboundLocalError :
        Except PyError SentCall) ≠ .error .typeError := by
  refine ⟨rfl, fun h => ?_⟩
  injection h with h'
  exact absurd h' (by decide)

/-- Claim C10: a `bracket_order` call with an instruction outside
BUY/SELL/BUY_TO_COVER/SELL_SHORT, and an `oto_limit_trail_order` call with
an instruction outside BUY/SELL, never assigns the child instruction and
fails with an unbound-name error before building the order body (no
validation error, no request). -/
theorem invalid_instruction_unbound
    (account_number symbol instruction duration : String)
    (price quantity profit_price limit_price limit_quantity trail_amount
      trail_quantity : Rat) :
    (instruction ∉ ["BUY", "SELL", "BUY_TO_COVER", "SELL_SHORT"] →
      bracket_order account_number symbol instruction price quantity
        profit_price duration = .error .unboundLocalError)
    ∧ (instruction ∉ ["BUY", "SELL"] →
      oto_limit_trail_order account_number symbol instruction limit_price
        limit_quantity trail_amount trail_quantity profit_price =
        .error .unboundLocalError) := by
  constructor
  · intro h
    simp only [List.mem_cons, List.not_mem_nil, or_false, not_or] at h
    obtain ⟨h1, h2, h3, h4⟩ := h
    simp [bracket_order, childInstructionBracket, h1, h2, h3, h4]
  · intro h
    simp only [List.mem_cons, List.not_mem_nil, or_false, not_or] at h
    obtain ⟨h1, h2⟩ := h
    simp [oto_limit_trail_order, childInstructionOto, h1, h2]

/-- Witness for `invalid_instruction_unbound`: with the concrete
instruction `"HOLD"`, both builders fail with the unbound-name error. -/
theorem invalid_instruction_unbound_witness :
    bracket_order "a1" "PFE" "HOLD" 30 1 40 "DAY" =
      .error .unboundLocalError
    ∧ oto_limit_trail_order "a1" "PFE" "HOLD" 30 1 1 1 40 =
      .error .unboundLocalError := by
  have h := invalid_instruction_unbound "a1" "PFE" "HOLD" "DAY"
    30 1 40 30 1 1 1
  exact ⟨h.1 (by decide), h.2 (by decide)⟩

/-- Claim C4 (amended): `_send_request` selects parse-vs-serialize by the
presence of a body, not by the HTTP method.  With `data=None` (any method)
a successful call stores the parsed JSON body as the client's last
response; with a body (any method) the body is serialized as JSON with
JSON content headers and the response is stored unparsed. -/
theorem send_request_branch_on_data (oauth_certificate url method : String)
    (data : Option JVal) (wire : HttpRequest → WireAnswer) :
    (data = none → ∀ body,
      wire (baseRequest oauth_certificate url method) = .success body →
      send_request oauth_certificate url method data wire =
        .ok (baseRequest oauth_certificate url method, .parsed body))
    ∧ (∀ d, data = some d →
      ("Content-Type", "application/json; charset=utf-8") ∈
          (jsonRequest oauth_certificate url method d).headers
      ∧ (jsonRequest oauth_certificate url method d).body = some d
      ∧ ∀ body,
          wire (jsonRequest oauth_certificate url method d) =
            .success body →
          send_request oauth_certificate url method data wire =
            .ok (jsonRequest oauth_certificate url method d,
              .rawHandle)) := by
  constructor
  · rintro rfl body hw
    simp [send_request, hw]
  · rintro d rfl
    refine ⟨?_, rfl, ?_⟩
    · simp [jsonRequest, baseRequest]
    · intro body hw
      simp [send_request, hw]

/-- Witness for `send_request_branch_on_data` at concrete inputs: a
body-less GET stores the parsed response, and a PUT with a body carries
the JSON content header and stores the response unparsed. -/
theorem send_request_branch_on_data_witness :
    send_request "tok" "accounts/a1" "GET" none
        (fun _ => .success (JVal.obj [("k", JVal.str "v")])) =
      .ok (baseRequest "tok" "accounts/a1" "GET",
        .parsed (JVal.obj [("k", JVal.str "v")]))
    ∧ ("Content-Type", "application/json; charset=utf-8") ∈
        (jsonRequest "tok" "accounts/a1" "PUT" JVal.null).headers := by
  constructor
  · exact (send_request_branch_on_data "tok" "accounts/a1" "GET" none
      (fun _ => .success (JVal.obj [("k", JVal.str "v")]))).1 rfl
      (JVal.obj [("k", JVal.str "v")]) rfl
  · exact ((send_request_branch_on_data "tok" "accounts/a1" "PUT"
      (some JVal.null) (fun _ => .success JVal.null)).2 JVal.null rfl).1

/-- Claim C4 is false as stated: a successful GET call that carries a body
(as `replace_watchlist` issues) takes the serialize branch and stores the
raw unparsed response handle, not the parsed JSON body it received, so the
parse-vs-serialize behaviour is not determined by the HTTP method. -/
theorem send_request_get_with_body_not_parsed :
    send_request "tok" "accounts/a1/watchlists/w1" "GET"
        (some (JVal.obj []))
        (fun _ => .success (JVal.obj [("k", JVal.str "v")])) =
      .ok (jsonRequest "tok" "accounts/a1/watchlists/w1" "GET"
        (JVal.obj []), .rawHandle)
    ∧ LastResponse.rawHandle ≠
        LastResponse.parsed (JVal.obj [("k", JVal.str "v")]) :=
  ⟨rfl, fun h => LastResponse.noConfusion h⟩

/-- Claim C3 (amended): for the first watchlist matching a name, lookup by
that name returns the same response as lookup by the corresponding
watchlistId; omitting both id and name raises `ValueError`; but a name
absent from the list does not fail — the scan leaves the id unbound and a
fetch is still issued against the URL ending `/None`. -/
theorem get_watchlist_name_id_agree (account_number : String)
    (watchlists : List WatchlistEntry) (wire : String → JVal)
    (w : WatchlistEntry) (nm : String) :
    (watchlists.find? (fun x => x.name == w.name) = some w →
      (get_watchlist account_number watchlists wire none
        (some w.name)).map (·.2) =
      (get_watchlist account_number watchlists wire
        (some w.watchlistId) none).map (·.2))
    ∧ get_watchlist account_number watchlists wire none none =
        .error .valueError
    ∧ ((∀ x ∈ watchlists, x.name ≠ nm) →
      get_watchlist account_number watchlists wire none (some nm) =
        .ok ([watchlistsUrl account_number,
              watchlistUrl account_number none],
          wire (watchlistUrl account_number none))) := by
  refine ⟨?_, rfl, ?_⟩
  · intro hfind
    simp [get_watchlist, hfind, Except.map]
  · intro habs
    have hfind : watchlists.find? (fun x => x.name == nm) = none := by
      rw [List.find?_eq_none]
      intro x hx
      simpa using habs x hx
    simp [get_watchlist, hfind]

/-- Witness for `get_watchlist_name_id_agree` at concrete inputs: lookup
of `"w1"` by name equals lookup by its id `"111"`, the no-argument call
raises `ValueError`, and lookup of the absent `"zzz"` issues the fetch of
the `/None` URL. -/
theorem get_watchlist_name_id_agree_witness :
    (get_watchlist "a1" [⟨"w1", "111"⟩] (fun u => JVal.str u) none
      (some "w1")).map (·.2) =
    (get_watchlist "a1" [⟨"w1", "111"⟩] (fun u => JVal.str u)
      (some "111") none).map (·.2)
    ∧ get_watchlist "a1" [⟨"w1", "111"⟩] (fun u => JVal.str u) none none =
        .error .valueError
    ∧ get_watchlist "a1" [⟨"w1", "111"⟩] (fun u => JVal.str u) none
        (some "zzz") =
      .ok (["accounts/a1/watchlists", "accounts/a1/watchlists/None"],
        JVal.str "accounts/a1/watchlists/None") := by
  have h := get_watchlist_name_id_agree "a1" [⟨"w1", "111"⟩]
    (fun u => JVal.str u) ⟨"w1", "111"⟩ "zzz"
  exact ⟨h.1 rfl, h.2.1, h.2.2 (by decide)⟩

/-- Claim C3 is false as stated: looking up a name absent from the
watchlist listing does not fail with a not-found condition — the call
succeeds after issuing a fetch to the URL ending `/None`. -/
theorem get_watchlist_absent_name_fetches :
    get_watchlist "a1" [⟨"w1", "111"⟩] (fun u => JVal.str u) none
        (some "zzz") =
      .ok (["accounts/a1/watchlists", "accounts/a1/watchlists/None"],
        JVal.str "accounts/a1/watchlists/None") := rfl

/-- Claim C2, evaluated at the failing input: with symbol A returning one
candle and symbol B returning zero candles, the batch in order [B, A]
indeed skips B and returns a table whose columns are A's only, but the
batch in order [A, B] aborts with `AttributeError` — the post-loop
assembly reads `.index` off the stale `temp_data` local, which after a
trailing zero-candle symbol is the flat numpy array, not a DataFrame. -/
theorem price_history_zero_candle_divergence :
    ((get_price_history (Sum.inr ["B", "A"]) "daily" 1 0 1 true
        (fun s => if s = "A" then
          [⟨86400000, 1, 2, 1, 2, 100⟩] else [])).2).map Bars.columns =
      .ok [("A", "close_price"), ("A", "high"), ("A", "low"),
           ("A", "open_price"), ("A", "volume")]
    ∧ (get_price_history (Sum.inr ["A", "B"]) "daily" 1 0 1 true
        (fun s => if s = "A" then
          [⟨86400000, 1, 2, 1, 2, 100⟩] else [])).2 =
      .error .attributeError := by
  constructor
  · rfl
  · rfl

/-- The `childId` value `format_order` writes when the
`childOrderStrategies` key is absent or its list nonempty. -/
def childIdOf (o : OrderIn) : Option Int :=
  match o.childOrderStrategies with
  | some (c :: _) => some c.orderId
  | _ => none

/-- Orders whose `childOrderStrategies` key, when present (also on the
first child, which the loop formats too), holds a nonempty list — the
shape under which the `[0]` indexing in `format_order` cannot raise
`IndexError`. -/
def WellFormedChildren (orders : List OrderIn) : Prop :=
  ∀ o ∈ orders, o.childOrderStrategies ≠ some [] ∧
    ∀ c cs, o.childOrderStrategies = some (c :: cs) →
      c.childOrderStrategies ≠ some []

/-- A non-simple order makes `format_order` raise `NotImplementedError`. -/
theorem format_order_not_simple (o : OrderIn) (h : ¬ isSimpleOrder o) :
    format_order o = .error .notImplementedError := by
  unfold format_order
  rw [if_neg h]

/-- A simple order with nonempty-when-present children formats to the flat
record drawn from the order and its single leg. -/
theorem format_order_ok_of_simple (o : OrderIn) (leg : LegIn)
    (rest : List LegIn) (h : isSimpleOrder o)
    (hleg : o.orderLegCollection = leg :: rest)
    (hch : o.childOrderStrategies ≠ some []) :
    format_order o =
      .ok { price := o.price, session := o.session, type := o.orderType,
            duration := o.duration, symbol := leg.symbol,
            instruction := leg.instruction, quantity := leg.quantity,
            position_effect := leg.positionEffect, id := o.orderId,
            time := if o.duration = "GOOD_TILL_CANCEL" then o.cancelTime
              else "",
            childId := childIdOf o } := by
  unfold format_order
  rw [if_pos h, hleg]
  cases hc : o.childOrderStrategies with
  | none => simp [childIdOf, hc]
  | some l =>
    cases l with
    | nil => exact absurd hc hch
    | cons c cs => simp [childIdOf, hc]

/-- A simple order with nonempty-when-present children formats
successfully. -/
theorem format_order_isOk (o : OrderIn) (hs : isSimpleOrder o)
    (hch : o.childOrderStrategies ≠ some []) :
    ∃ f, format_order o = .ok f := by
  obtain ⟨h1, h2, h3⟩ := hs
  cases hl : o.orderLegCollection with
  | nil => rw [hl] at h3; simp at h3
  | cons leg rest =>
    exact ⟨_, format_order_ok_of_simple o leg rest ⟨h1, h2, h3⟩ hl hch⟩

/-- When a non-simple order sits anywhere in a well-formed list, the
`format_orders` loop propagates its `NotImplementedError`. -/
theorem formatOrdersLoop_error_of_not_simple (orders : List OrderIn)
    (o : OrderIn) (hmem : o ∈ orders) (hwf : WellFormedChildren orders)
    (hns : ¬ isSimpleOrder o) :
    formatOrdersLoop orders = .error .notImplementedError := by
  induction orders with
  | nil => cases hmem
  | cons hd rest ih =>
    have hwf_hd := hwf hd (List.mem_cons_self hd rest)
    have hwf_rest : WellFormedChildren rest :=
      fun x hx => hwf x (List.mem_cons_of_mem hd hx)
    rcases List.mem_cons.mp hmem with rfl | hmem2
    · simp only [formatOrdersLoop, format_order_not_simple o hns]
      rfl
    · by_cases hs : isSimpleOrder hd
      · obtain ⟨f, hf⟩ := format_order_isOk hd hs hwf_hd.1
        cases hc : hd.childOrderStrategies with
        | none =>
          simp only [formatOrdersLoop, hf, hc, ih hmem2 hwf_rest]
          rfl
        | some l =>
          cases l with
          | nil => exact absurd hc hwf_hd.1
          | cons c cs =>
            by_cases hcs : isSimpleOrder c
            · obtain ⟨fc, hfc⟩ := format_order_isOk c hcs
                (hwf_hd.2 c cs hc)
              simp only [formatOrdersLoop, hf, hc, hfc,
                ih hmem2 hwf_rest]
              rfl
            · simp only [formatOrdersLoop, hf, hc,
                format_order_not_simple c hcs]
              rfl
      · simp only [formatOrdersLoop, format_order_not_simple hd hs]
        rfl

/-- Claim C1 (amended): for every order in a list whose
`childOrderStrategies` fields, when present, are nonempty: if the order is
single-leg, full-quantity and non-complex, formatting it produces the flat
record with fields price, session, type, duration, symbol, instruction,
quantity, position_effect and id drawn from the order; if it is not of
that shape, `format_orders` raises `NotImplementedError`.  (Without the
nonemptiness proviso an `IndexError` from the `childId` line can pre-empt
either outcome.) -/
theorem format_orders_simple_vs_complex (orders : List OrderIn)
    (o : OrderIn) (hmem : o ∈ orders)
    (hwf : WellFormedChildren orders) :
    (∀ leg rest, isSimpleOrder o → o.orderLegCollection = leg :: rest →
      format_order o =
        .ok { price := o.price, session := o.session, type := o.orderType,
              duration := o.duration, symbol := leg.symbol,
              instruction := leg.instruction, quantity := leg.quantity,
              position_effect := leg.positionEffect, id := o.orderId,
              time := if o.duration = "GOOD_TILL_CANCEL" then o.cancelTime
                else "",
              childId := childIdOf o })
    ∧ (¬ isSimpleOrder o →
      format_orders orders = .error .notImplementedError) := by
  constructor
  · intro leg rest hs hleg
    exact format_order_ok_of_simple o leg rest hs hleg (hwf o hmem).1
  · intro hns
    exact formatOrdersLoop_error_of_not_simple orders o hmem hwf hns

/-- Witness for `format_orders_simple_vs_complex` at concrete inputs: a
simple order formats to its flat record, and a two-leg order anywhere in
the list makes `format_orders` raise `NotImplementedError`. -/
theorem format_orders_simple_vs_complex_witness :
    format_order (OrderIn.mk "NONE" 1 1 30 "NORMAL" "LIMIT" "DAY" "" 41
        [⟨"BUY", 1, "PFE", "OPENING"⟩] none) =
      .ok { price := 30, session := "NORMAL", type := "LIMIT",
            duration := "DAY", symbol := "PFE", instruction := "BUY",
            quantity := 1, position_effect := "OPENING", id := 41,
            time := "", childId := none }
    ∧ format_orders [OrderIn.mk "NONE" 1 1 30 "NORMAL" "LIMIT" "DAY" "" 42
        [⟨"BUY", 1, "PFE", "OPENING"⟩, ⟨"SELL", 1, "PFE", "CLOSING"⟩]
        none] = .error .notImplementedError := by
  have hwf1 : WellFormedChildren [OrderIn.mk "NONE" 1 1 30 "NORMAL"
      "LIMIT" "DAY" "" 41 [⟨"BUY", 1, "PFE", "OPENING"⟩] none] := by
    intro x hx
    rw [List.mem_singleton] at hx
    subst hx
    exact ⟨by simp [OrderIn.childOrderStrategies],
      fun c cs h => by simp [OrderIn.childOrderStrategies] at h⟩
  have hwf2 : WellFormedChildren [OrderIn.mk "NONE" 1 1 30 "NORMAL"
      "LIMIT" "DAY" "" 42
      [⟨"BUY", 1, "PFE", "OPENING"⟩, ⟨"SELL", 1, "PFE", "CLOSING"⟩]
      none] := by
    intro x hx
    rw [List.mem_singleton] at hx
    subst hx
    exact ⟨by simp [OrderIn.childOrderStrategies],
      fun c cs h => by simp [OrderIn.childOrderStrategies] at h⟩
  constructor
  · exact (format_orders_simple_vs_complex _ _
      (List.mem_singleton.mpr rfl) hwf1).1
      ⟨"BUY", 1, "PFE", "OPENING"⟩ [] (by decide) rfl
  · exact (format_orders_simple_vs_complex _ _
      (List.mem_singleton.mpr rfl) hwf2).2 (by decide)

/-- Claim C1 is false as stated: a single-leg, full-quantity, non-complex
order whose `childOrderStrategies` key is present with an empty list
satisfies the simple-shape guard yet `format_order` raises `IndexError`
at the `childId` line instead of returning the record, and with a two-leg
order also in the list `format_orders` raises that `IndexError`, not the
claimed `NotImplementedError`. -/
theorem format_order_empty_child_counterexample :
    isSimpleOrder (OrderIn.mk "NONE" 1 1 30 "NORMAL" "LIMIT" "DAY" "" 43
      [⟨"BUY", 1, "PFE", "OPENING"⟩] (some []))
    ∧ format_order (OrderIn.mk "NONE" 1 1 30 "NORMAL" "LIMIT" "DAY" "" 43
        [⟨"BUY", 1, "PFE", "OPENING"⟩] (some [])) = .error .indexError
    ∧ format_orders [OrderIn.mk "NONE" 1 1 30 "NORMAL" "LIMIT" "DAY" ""
        43 [⟨"BUY", 1, "PFE", "OPENING"⟩] (some []),
        OrderIn.mk "NONE" 1 1 30 "NORMAL" "LIMIT" "DAY" "" 44
        [⟨"BUY", 1, "PFE", "OPENING"⟩, ⟨"SELL", 1, "PFE", "CLOSING"⟩]
        none] = .error .indexError
    ∧ (Except.error PyError.indexError : Except PyError FormattedOrder) ≠
        .error .notImplementedError := by
  refine ⟨by decide, rfl, rfl, fun h => ?_⟩
  injection h with h'
  exact absurd h' (by decide)
